import Mathlib

/- Verification of the request dispatcher, scraping/extraction pipeline and
persistence sink of the playground web server.  The server consists of two
Python files: `src/server.py` (the current server, class `MALProxyHandler`)
and `src/site/server.py` (the legacy server, same class name).  Both inherit
from the standard library `SimpleHTTPRequestHandler`.

Text is embedded as `List Char` (`Str` below).  Outbound HTTP is modelled by
a fetch oracle `Str → FetchOutcome`; the file system backing the static file
server is modelled by an oracle `Str → Bool` telling whether a regular file
exists at the resolved request path; JSON documents are modelled by the
inductive `Json` (serialisation via `json.dumps` is not modelled — handler
bodies are compared as `Json` values).  File writes of the persistence sink
are returned as a list of (relative file name, stored document) pairs, and
outbound fetches as the list of fetched URLs, so that "no write happened" /
"no fetch was issued" are directly statable. -/

/-- Text, embedded as a list of characters. -/
abbrev Str := List Char

/-- Result of an outbound page fetch, as seen by the Python handlers: a
decoded body on success, a `urllib.error.URLError` (caught separately by the
handlers), or any other exception raised while fetching/decoding (caught by
the generic `except Exception` arms). -/
inductive FetchOutcome where
  | ok (html : Str)
  | urlError (msg : Str)
  | otherError (msg : Str)

/-- JSON values, used for handler response bodies and stored documents. -/
inductive Json where
  | null
  | str (s : Str)
  | num (n : Int)
  | jbool (b : Bool)
  | arr (xs : List Json)
  | obj (fields : List (Str × Json))

/-- Response body: empty (OPTIONS), a JSON value the handler composed
itself, the standard library's HTML error page (`send_error`), or the bytes
of a static file served by `SimpleHTTPRequestHandler`. -/
inductive Body where
  | empty
  | jsonBody (j : Json)
  | errorPage (msg : Str)
  | fileContents (path : Str)

/-- An HTTP response: status code, headers in the order they are sent
(standard `Server`/`Date`/`Content-Length` headers are not modelled), and
the body. -/
structure HttpResponse where
  status : Nat
  headers : List (Str × Str)
  body : Body

/-- Model of the Python stdlib `BaseHTTPRequestHandler.send_error`: sends
the given status code, a `Connection: close` header and the default
`text/html` error page.  It does not attach any CORS header (the handler
classes do not override it). -/
def send_error (code : Nat) (msg : Str) : HttpResponse :=
  HttpResponse.mk code
    [(("Connection".toList), ("close".toList)),
     (("Content-Type".toList), ("text/html;charset=utf-8".toList))]
    (Body.errorPage msg)

/- Model of `urllib.parse.urlparse` as used on request paths: the fragment
is split off at the first '#', the query at the first '?'. -/

/-- Part of the url before the first '#'. -/
def urlDefrag (p : Str) : Str := p.takeWhile (fun c => !(c == '#'))

/-- The `.path` component of `urllib.parse.urlparse`: everything before the
first '?' (fragment already removed). -/
def urlPathOf (p : Str) : Str := (urlDefrag p).takeWhile (fun c => !(c == '?'))

/-- The `.query` component of `urllib.parse.urlparse`: everything after the
first '?' of the defragmented url, empty when there is no '?'. -/
def urlQueryOf (p : Str) : Str :=
  if '?' ∈ urlDefrag p then ((urlDefrag p).dropWhile (fun c => !(c == '?'))).tail
  else []

/-- Python `str.split(sep)` for a one-character separator: never returns an
empty list, keeps empty pieces. -/
def splitOnChar (sep : Char) : Str → List Str
  | [] => [[]]
  | c :: rest =>
    match splitOnChar sep rest with
    | [] => [[c]]
    | h :: t => if c = sep then [] :: h :: t else (c :: h) :: t

/-- One `name=value` piece of a query string, as `urllib.parse.parse_qsl`
treats it with default arguments: empty pieces, pieces without '=' and
pieces with an empty value are all dropped (`keep_blank_values=False`);
the value is everything after the first '='.  Percent- and plus-decoding of
names and values is not modelled (no claim depends on it). -/
def qsPair (piece : Str) : Option (Str × Str) :=
  if piece = [] then none
  else if '=' ∈ piece then
    if (piece.dropWhile (fun c => !(c == '='))).tail = [] then none
    else some (piece.takeWhile (fun c => !(c == '=')),
               (piece.dropWhile (fun c => !(c == '='))).tail)
  else none

/-- Model of `urllib.parse.parse_qsl` with default arguments: split the
query on '&' and parse each piece, in order. -/
def parse_qsl (query : Str) : List (Str × Str) :=
  (splitOnChar '&' query).filterMap qsPair

/-- Model of `urllib.parse.parse_qs(query).get(name, [dflt])[0]`, the
parameter lookup used by every handler: `parse_qs` groups the `parse_qsl`
pairs by name preserving order, so element `[0]` of the group for `name` is
the value of the first pair whose name matches, and the default is returned
when no pair matches. -/
def getFirstParam (query : Str) (name dflt : Str) : Str :=
  match (parse_qsl query).filter (fun pr => pr.1 == name) with
  | [] => dflt
  | pr :: _ => pr.2

/- Model of `urllib.parse.quote` with the default safe characters. -/

/-- Uppercase hexadecimal digit for `n < 16`. -/
def hexDigit (n : Nat) : Char :=
  if n < 10 then Char.ofNat (48 + n) else Char.ofNat (55 + n)

/-- Characters `urllib.parse.quote` leaves unescaped by default: ASCII
letters, digits, `_.-~` and the default `safe='/'`. -/
def quoteSafe (c : Char) : Bool :=
  decide ((65 ≤ c.toNat ∧ c.toNat ≤ 90) ∨ (97 ≤ c.toNat ∧ c.toNat ≤ 122) ∨
    (48 ≤ c.toNat ∧ c.toNat ≤ 57) ∨ c = '_' ∨ c = '.' ∨ c = '-' ∨ c = '~' ∨ c = '/')

/-- UTF-8 encoding of one character, as a list of byte values. -/
def utf8Bytes (c : Char) : List Nat :=
  if c.toNat < 128 then [c.toNat]
  else if c.toNat < 2048 then [192 + c.toNat / 64, 128 + c.toNat % 64]
  else if c.toNat < 65536 then
    [224 + c.toNat / 4096, 128 + (c.toNat / 64) % 64, 128 + c.toNat % 64]
  else
    [240 + c.toNat / 262144, 128 + (c.toNat / 4096) % 64,
     128 + (c.toNat / 64) % 64, 128 + c.toNat % 64]

/-- Percent-escape of one byte. -/
def percentByte (b : Nat) : Str := ['%', hexDigit (b / 16), hexDigit (b % 16)]

/-- Model of `urllib.parse.quote(s)`: safe characters kept, every other
character percent-encoded byte by byte of its UTF-8 encoding. -/
def pyQuote (s : Str) : Str :=
  (s.map (fun c => if quoteSafe c then [c] else ((utf8Bytes c).map percentByte).flatten)).flatten

/- The identifier extractor of `_handle_playlist_scrape`
(src/server.py lines 149-161): `re.findall` of the pattern
`"videoId":"([a-zA-Z0-9_-]{11})"`, then order-preserving deduplication via
a `seen` set, then truncation to the first 100 entries. -/

/-- Characters of the regex class `[a-zA-Z0-9_-]`. -/
def videoIdChar (c : Char) : Bool :=
  decide ((97 ≤ c.toNat ∧ c.toNat ≤ 122) ∨ (65 ≤ c.toNat ∧ c.toNat ≤ 90) ∨
    (48 ≤ c.toNat ∧ c.toNat ≤ 57) ∨ c = '_' ∨ c = '-')

/-- Match a literal pattern at the head of the input, returning the rest. -/
def dropExact : Str → Str → Option Str
  | [], s => some s
  | _ :: _, [] => none
  | p :: ps, c :: cs => if c = p then dropExact ps cs else none

/-- Try to match the whole pattern `"videoId":"([a-zA-Z0-9_-]{11})"` at the
head of the input; on success return the 11-character capture group and the
input remaining after the closing quote of the match. -/
def videoIdAt (s : Str) : Option (Str × Str) :=
  match dropExact ("\"videoId\":\"".toList) s with
  | none => none
  | some rest =>
    if (rest.take 11).length == 11 && (rest.take 11).all videoIdChar then
      match rest.drop 11 with
      | '"' :: rest2 => some (rest.take 11, rest2)
      | _ => none
    else none

/-- Scan for all non-overlapping matches left to right, as `re.findall`
does: on a match, continue after the matched text; otherwise advance one
character.  The fuel argument (instantiated with the input length, which
bounds the number of scan steps) only serves termination. -/
def findVideoIds : Nat → Str → List Str
  | 0, _ => []
  | _ + 1, [] => []
  | fuel + 1, c :: rest =>
    match videoIdAt (c :: rest) with
    | some (tok, remaining) => tok :: findVideoIds fuel remaining
    | none => findVideoIds fuel rest

/-- `re.findall(r'"videoId":"([a-zA-Z0-9_-]{11})"', html)`
(src/server.py lines 150-151). -/
def reFindAllVideoIds (html : Str) : List Str := findVideoIds html.length html

/-- The deduplication loop of src/server.py lines 154-158: a `seen` set
gates insertion into the output sequence, preserving first-seen order. -/
def dedupSeen (seen : List Str) : List Str → List Str
  | [] => []
  | x :: xs => if x ∈ seen then dedupSeen seen xs else x :: dedupSeen (x :: seen) xs

/-- The identifier extractor of `_handle_playlist_scrape`: matches, then
deduplication, then `video_ids[:100]` (src/server.py lines 147-161). -/
def extract_video_ids (html : Str) : List Str :=
  (dedupSeen [] (reFindAllVideoIds html)).take 100

/- The title extractor of `_handle_playlist_scrape`
(src/server.py lines 139-143): `re.search(r'<title>(.+?)</title>', html)`,
then `.replace(' - YouTube', '').strip()` on the capture group, falling
back to the playlist id when there is no match. -/

/-- The closing tag literal of the title regex. -/
def titleClose : Str := "</title>".toList

/-- Non-greedy scan of the capture group `(.+?)` followed by `</title>`:
having consumed at least one character, first try the closing literal at
the current point, else consume one more character; `.` does not match a
newline and there is no other way to extend, so hitting a newline or the
end of input fails the whole attempt. -/
def titleScan : Str → Str → Option Str
  | _, [] => none
  | acc, d :: s2 =>
    if titleClose.isPrefixOf (d :: s2) then some acc.reverse
    else if d = '\n' then none
    else titleScan (d :: acc) s2

/-- Try to match `<title>(.+?)</title>` at the head of the input, returning
the capture group. -/
def titleAt (s : Str) : Option Str :=
  match dropExact ("<title>".toList) s with
  | none => none
  | some [] => none
  | some (c :: rest) => if c = '\n' then none else titleScan [c] rest

/-- Scan positions left to right and return the leftmost (and, at that
position, shortest) match, as `re.search` with a lazy quantifier does.
The fuel argument (instantiated with the input length) only serves
termination. -/
def titleSearchGo : Nat → Str → Option Str
  | 0, _ => none
  | _ + 1, [] => none
  | fuel + 1, c :: rest =>
    match titleAt (c :: rest) with
    | some t => some t
    | none => titleSearchGo fuel rest

/-- `re.search(r'<title>(.+?)</title>', html)` (src/server.py line 141),
returning the capture group of the first match. -/
def reSearchTitle (html : Str) : Option Str := titleSearchGo html.length html

/-- Python `str.replace(pat, rep)` for a non-empty pattern: replace every
non-overlapping occurrence left to right.  The fuel argument (instantiated
with the input length) only serves termination. -/
def pyReplaceGo (pat rep : Str) : Nat → Str → Str
  | 0, s => s
  | _ + 1, [] => []
  | fuel + 1, c :: rest =>
    if pat.isPrefixOf (c :: rest) then
      rep ++ pyReplaceGo pat rep fuel ((c :: rest).drop pat.length)
    else c :: pyReplaceGo pat rep fuel rest

/-- Python `s.replace(pat, rep)` for a non-empty pattern. -/
def pyReplace (s pat rep : Str) : Str := pyReplaceGo pat rep s.length s

/-- Python `str.strip()` whitespace, restricted to the ASCII whitespace
characters (the Unicode whitespace also stripped by Python does not occur
in any claim). -/
def pySpace (c : Char) : Bool :=
  c == ' ' || c == '\t' || c == '\n' || c == '\r' || c.toNat == 11 || c.toNat == 12

/-- Python `s.strip()`. -/
def pyStrip (s : Str) : Str :=
  ((s.dropWhile pySpace).reverse.dropWhile pySpace).reverse

/-- The playlist name computed by src/server.py lines 139-143: the
transformed title when the title regex matches, else the playlist id. -/
def extract_playlist_name (playlist_id html : Str) : Str :=
  match reSearchTitle html with
  | none => playlist_id
  | some t => pyStrip (pyReplace t (" - YouTube".toList) [])

/- Response construction shared by the handlers. -/

/-- Headers sent by every JSON-composing success path of both servers
(`Content-Type` then `Access-Control-Allow-Origin`, in source order). -/
def jsonHeaders : List (Str × Str) :=
  [(("Content-Type".toList), ("application/json".toList)),
   (("Access-Control-Allow-Origin".toList), ("*".toList))]

/-- The wildcard CORS header each JSON response carries. -/
def corsHeader : Str × Str := (("Access-Control-Allow-Origin".toList), ("*".toList))

/-- The `{'html': html}` body of the proxy endpoints. -/
def proxyHtmlJson (html : Str) : Json := Json.obj [(("html".toList), Json.str html)]

/-- The success body of the scrape endpoint (src/server.py lines 169-175). -/
def scrapeSuccessJson (playlist_id playlist_name : Str) (ids : List Str) : Json :=
  Json.obj [(("success".toList), Json.jbool true),
            (("playlistId".toList), Json.str playlist_id),
            (("playlistName".toList), Json.str playlist_name),
            (("videoIds".toList), Json.arr (ids.map Json.str)),
            (("videoCount".toList), Json.num (ids.length : Int))]

/-- The failure body of the scrape endpoint. -/
def scrapeFailJson (msg : Str) : Json :=
  Json.obj [(("success".toList), Json.jbool false), (("error".toList), Json.str msg)]

/-- The MAL anime page url (src/server.py line 63). -/
def animeUrl (anime_id : Str) : Str := "https://myanimelist.net/anime/".toList ++ anime_id

/-- The MAL anime list url (src/server.py line 92 and
src/site/server.py line 26). -/
def animelistUrl (username status : Str) : Str :=
  "https://myanimelist.net/animelist/".toList ++ pyQuote username
    ++ "?status=".toList ++ status

/-- Response of either proxy branch after the fetch, identical in
src/server.py lines 69-79, 98-113 and src/site/server.py lines 32-47:
200 + `{'html': ...}` on success, `send_error(500, ...)` with the branch
specific message on `URLError` or any other exception. -/
def proxy_fetched (outcome : FetchOutcome) : HttpResponse :=
  match outcome with
  | FetchOutcome.ok html =>
    HttpResponse.mk 200 jsonHeaders (Body.jsonBody (proxyHtmlJson html))
  | FetchOutcome.urlError m => send_error 500 ("Error fetching MAL page: ".toList ++ m)
  | FetchOutcome.otherError m => send_error 500 ("Server error: ".toList ++ m)

/-- `_handle_proxy` of src/server.py lines 50-113: paths beginning
`/proxy-anime` take the anime branch keyed on the `id` parameter; every
other `/proxy...` path takes the list branch keyed on `username` (required)
and `status` (default `"1"`).  The second component records the outbound
fetches that were issued. -/
def handle_proxy (path : Str) (fetch : Str → FetchOutcome) : HttpResponse × List Str :=
  if ("/proxy-anime".toList).isPrefixOf path = true then
    if getFirstParam (urlQueryOf path) ("id".toList) [] = [] then
      (send_error 400 ("Missing anime id parameter".toList), [])
    else
      (proxy_fetched (fetch (animeUrl (getFirstParam (urlQueryOf path) ("id".toList) []))),
       [animeUrl (getFirstParam (urlQueryOf path) ("id".toList) [])])
  else
    if getFirstParam (urlQueryOf path) ("username".toList) [] = [] then
      (send_error 400 ("Missing username parameter".toList), [])
    else
      (proxy_fetched (fetch (animelistUrl
          (getFirstParam (urlQueryOf path) ("username".toList) [])
          (getFirstParam (urlQueryOf path) ("status".toList) ("1".toList)))),
       [animelistUrl (getFirstParam (urlQueryOf path) ("username".toList) [])
          (getFirstParam (urlQueryOf path) ("status".toList) ("1".toList))])

/-- The YouTube playlist url (src/server.py line 129). -/
def scrapeUrl (playlist_id : Str) : Str :=
  "https://www.youtube.com/playlist?list=".toList ++ playlist_id

/-- Response of the scrape endpoint after the fetch
(src/server.py lines 136-196): always 200, a success body built from the
extractors on a successful fetch, a `{'success': False, 'error': ...}` body
on `URLError` or any other exception. -/
def scrape_fetched (playlist_id : Str) (outcome : FetchOutcome) : HttpResponse :=
  match outcome with
  | FetchOutcome.ok html =>
    HttpResponse.mk 200 jsonHeaders (Body.jsonBody (scrapeSuccessJson playlist_id
      (extract_playlist_name playlist_id html) (extract_video_ids html)))
  | FetchOutcome.urlError m =>
    HttpResponse.mk 200 jsonHeaders
      (Body.jsonBody (scrapeFailJson ("Failed to fetch playlist: ".toList ++ m)))
  | FetchOutcome.otherError m =>
    HttpResponse.mk 200 jsonHeaders
      (Body.jsonBody (scrapeFailJson ("Server error: ".toList ++ m)))

/-- `_handle_playlist_scrape` of src/server.py lines 115-196. -/
def handle_playlist_scrape (path : Str) (fetch : Str → FetchOutcome) :
    HttpResponse × List Str :=
  if getFirstParam (urlQueryOf path) ("id".toList) [] = [] then
    (send_error 400 ("Missing playlist id parameter".toList), [])
  else
    (scrape_fetched (getFirstParam (urlQueryOf path) ("id".toList) [])
      (fetch (scrapeUrl (getFirstParam (urlQueryOf path) ("id".toList) []))),
     [scrapeUrl (getFirstParam (urlQueryOf path) ("id".toList) [])])

/-- Model of the Python stdlib `SimpleHTTPRequestHandler.do_GET`: strips
the query/fragment, serves the file bytes with 200 when a regular file
exists at the resolved path, else `send_error(404, "File not found")`.
The guessed `Content-Type` and `Content-Length` headers of a file response
are not modelled (no CORS header is added by the stdlib either way), and
directory handling is not modelled (the oracle answers whether a regular
file exists). -/
def simple_do_GET (existsFile : Str → Bool) (path : Str) : HttpResponse :=
  if existsFile (urlPathOf path) = true then
    HttpResponse.mk 200 [] (Body.fileContents (urlPathOf path))
  else send_error 404 ("File not found".toList)

/-- The client-side routes of src/server.py line 27. -/
def spa_routes : List Str :=
  ["/schedule".toList, "/shows".toList, "/music".toList, "/import".toList]

/-- Whether `os.path.splitext(p)[1]` is non-empty: the basename, with its
leading dots removed (leading dots never begin an extension), still
contains a dot. -/
def splitextHasExt (p : Str) : Bool :=
  (((p.reverse.takeWhile (fun c => !(c == '/'))).reverse.dropWhile
      (fun c => c == '.')).contains '.')

/-- `_handle_spa_routing` of src/server.py lines 21-48: known client-side
routes serve `/app.html`; existing regular files are served as is; unknown
extensionless paths outside `/data/` fall back to `/app.html`; everything
else is left to the default handler (a 404 when no file exists).  The
oracle stands for `os.path.exists(translate_path(...)) and os.path.isfile(...)`
on the query-stripped path. -/
def handle_spa_routing (existsFile : Str → Bool) (path : Str) : HttpResponse :=
  if urlPathOf path ∈ spa_routes then
    simple_do_GET existsFile ("/app.html".toList)
  else if existsFile (urlPathOf path) = true then
    simple_do_GET existsFile path
  else if (!(("/data/".toList).isPrefixOf (urlPathOf path))
      && !(splitextHasExt (urlPathOf path))) = true then
    simple_do_GET existsFile ("/app.html".toList)
  else
    simple_do_GET existsFile path

/-- `do_GET` of src/server.py lines 9-19: proxy prefix first, then scrape
prefix, then static/SPA handling.  The second component records the
outbound fetches that were issued. -/
def do_GET (existsFile : Str → Bool) (fetch : Str → FetchOutcome) (path : Str) :
    HttpResponse × List Str :=
  if ("/proxy".toList).isPrefixOf path = true then handle_proxy path fetch
  else if ("/scrape-playlist".toList).isPrefixOf path = true then
    handle_playlist_scrape path fetch
  else (handle_spa_routing existsFile path, [])

/-- The success response of every save endpoint (`Content-Type`,
`Access-Control-Allow-Origin`, `Access-Control-Allow-Methods: POST`,
then `{'success': True}`). -/
def saveOkResponse : HttpResponse :=
  HttpResponse.mk 200
    (jsonHeaders ++ [(("Access-Control-Allow-Methods".toList), ("POST".toList))])
    (Body.jsonBody (Json.obj [(("success".toList), Json.jbool true)]))

/-- One save branch: on a parse (or other) exception, `send_error(500,
branch message + str(e))` and nothing is written; otherwise the wrapped
payload is written wholesale to the branch's file and `{'success': True}`
is returned.  The payload argument stands for the result of
`json.loads(post_data)`. -/
def save_branch (errMsg fileName : Str) (wrap : Json → Json)
    (payload : Except Str Json) : HttpResponse × List (Str × Json) :=
  match payload with
  | Except.error m => (send_error 500 (errMsg ++ m), [])
  | Except.ok p => (saveOkResponse, [(fileName, wrap p)])

/-- `do_POST` of src/server.py lines 198-311.  File names are relative to
the directory of the server script (`os.path.dirname(__file__)`).  Note the
stored shapes in the source: shows/songs/playlists are wrapped in a named
envelope (lines 209, 277, 298) while schedule-updates (line 232) and titles
(line 256) are stored as the raw payload. -/
def do_POST (path : Str) (payload : Except Str Json) :
    HttpResponse × List (Str × Json) :=
  if path = ("/save-shows".toList) then
    save_branch ("Error saving shows: ".toList) ("data/shows.json".toList)
      (fun p => Json.obj [(("shows".toList), p)]) payload
  else if path = ("/save-schedule-updates".toList) then
    save_branch ("Error saving schedule updates: ".toList)
      ("data/schedule_updates.json".toList) (fun p => p) payload
  else if path = ("/save-titles".toList) then
    save_branch ("Error saving titles: ".toList) ("data/titles.json".toList)
      (fun p => p) payload
  else if path = ("/save-songs".toList) then
    save_branch ("Error saving songs: ".toList) ("data/songs.json".toList)
      (fun p => Json.obj [(("songs".toList), p)]) payload
  else if path = ("/save-playlists".toList) then
    save_branch ("Error saving playlists: ".toList) ("data/playlists.json".toList)
      (fun p => Json.obj [(("playlists".toList), p)]) payload
  else (send_error 404 ("Not found".toList), [])

/-- `do_OPTIONS` of src/server.py lines 313-319 (identical in
src/site/server.py lines 96-102): 200, the three CORS headers, no body. -/
def do_OPTIONS : HttpResponse :=
  HttpResponse.mk 200
    [(("Access-Control-Allow-Origin".toList), ("*".toList)),
     (("Access-Control-Allow-Methods".toList), ("POST, GET, OPTIONS".toList)),
     (("Access-Control-Allow-Headers".toList), ("Content-Type".toList))]
    Body.empty

/-- `do_GET` of the legacy src/site/server.py lines 9-47: every path not
beginning `/proxy` goes to the stdlib static handler; `/proxy...` paths all
take the username/status list branch (there is no anime branch and no SPA
routing in the legacy server). -/
def site_do_GET (existsFile : Str → Bool) (fetch : Str → FetchOutcome) (path : Str) :
    HttpResponse × List Str :=
  if (!(("/proxy".toList).isPrefixOf path)) = true then
    (simple_do_GET existsFile path, [])
  else
    if getFirstParam (urlQueryOf path) ("username".toList) [] = [] then
      (send_error 400 ("Missing username parameter".toList), [])
    else
      (proxy_fetched (fetch (animelistUrl
          (getFirstParam (urlQueryOf path) ("username".toList) [])
          (getFirstParam (urlQueryOf path) ("status".toList) ("1".toList)))),
       [animelistUrl (getFirstParam (urlQueryOf path) ("username".toList) [])
          (getFirstParam (urlQueryOf path) ("status".toList) ("1".toList))])

/-- `do_POST` of the legacy src/site/server.py lines 49-94: only
`/save-shows` (wrapped) and `/save-schedule-updates` (raw), else 404. -/
def site_do_POST (path : Str) (payload : Except Str Json) :
    HttpResponse × List (Str × Json) :=
  if path = ("/save-shows".toList) then
    save_branch ("Error saving shows: ".toList) ("data/shows.json".toList)
      (fun p => Json.obj [(("shows".toList), p)]) payload
  else if path = ("/save-schedule-updates".toList) then
    save_branch ("Error saving schedule updates: ".toList)
      ("data/schedule_updates.json".toList) (fun p => p) payload
  else (send_error 404 ("Not found".toList), [])

/-- The title transformation following the words of the spec for claim C7:
strip one trailing `" - YouTube"` suffix if present, then trim surrounding
whitespace.  Written only to be compared against the source's transform,
which replaces every occurrence of the suffix text. -/
def claimedTitleTransform (t : Str) : Str :=
  if (" - YouTube".toList).reverse.isPrefixOf t.reverse = true then
    pyStrip (t.take (t.length - (" - YouTube".toList).length))
  else pyStrip t

/-- Sample playlist page used by concrete witnesses: a title and three
video-id matches of which two are equal. -/
def sampleScrapeHtml : Str :=
  ("<title>My Mix - YouTube</title>\"videoId\":\"AAAAAAAAAAA\"x\"videoId\":\"BBBBBBBBBBB\"\"videoId\":\"AAAAAAAAAAA\"").toList

/-- A page whose title contains the site-name suffix also in the middle,
separating the source's replace-all from the claimed trailing strip. -/
def titleClashHtml : Str := "<title>A - YouTube B - YouTube</title>".toList

/-- A scrape request whose query repeats the `id` parameter with two
different values. -/
def dupIdPath : Str := "/scrape-playlist?id=AAAAAAAAAAA&id=BBBBBBBBBBB".toList

/- Helper lemmas. -/

/-- Members of the deduplicated sequence never come from the seen set. -/
lemma mem_dedupSeen_not_seen : ∀ (l seen : List Str) (x : Str),
    x ∈ dedupSeen seen l → x ∉ seen := by
  intro l
  induction l with
  | nil => intro seen x h; simp [dedupSeen] at h
  | cons y ys ih =>
    intro seen x h
    simp only [dedupSeen] at h
    by_cases hy : y ∈ seen
    · rw [if_pos hy] at h; exact ih seen x h
    · rw [if_neg hy] at h
      rcases List.mem_cons.mp h with h1 | h2
      · subst h1; exact hy
      · intro hx; exact (ih (y :: seen) x h2) (List.mem_cons_of_mem y hx)

/-- The deduplication loop produces a duplicate-free list. -/
lemma dedupSeen_nodup : ∀ (l seen : List Str), (dedupSeen seen l).Nodup := by
  intro l
  induction l with
  | nil => intro seen; simp [dedupSeen]
  | cons y ys ih =>
    intro seen
    simp only [dedupSeen]
    split
    · exact ih seen
    · refine List.nodup_cons.mpr ⟨?_, ih (y :: seen)⟩
      intro hy
      exact (mem_dedupSeen_not_seen ys (y :: seen) y hy) (List.mem_cons_self y seen)

/-- The deduplication loop preserves first-seen order: its output is a
sublist of its input. -/
lemma dedupSeen_sublist : ∀ (l seen : List Str), List.Sublist (dedupSeen seen l) l := by
  intro l
  induction l with
  | nil => intro seen; simp [dedupSeen]
  | cons y ys ih =>
    intro seen
    simp only [dedupSeen]
    split
    · exact List.Sublist.cons y (ih seen)
    · exact List.Sublist.cons₂ y (ih (y :: seen))

/-- A path with the scrape prefix never has the proxy prefix. -/
lemma not_proxy_of_scrape {p : Str}
    (h : ("/scrape-playlist".toList) <+: p) : ¬ (("/proxy".toList) <+: p) := by
  intro hb
  rcases List.prefix_or_prefix_of_prefix hb h with hc | hc
  · exact absurd hc (by decide)
  · exact absurd hc (by decide)

/-- A path with the proxy-anime prefix has the proxy prefix. -/
lemma proxy_of_anime {p : Str}
    (h : ("/proxy-anime".toList) <+: p) : ("/proxy".toList) <+: p :=
  (by decide : ("/proxy".toList) <+: ("/proxy-anime".toList)).trans h

/-- A path under the data prefix is not a known client-side route. -/
lemma data_not_spa {q : Str} (h : ("/data/".toList) <+: q) :
    q ∉ spa_routes := by
  intro hmem
  simp only [spa_routes, List.mem_cons, List.not_mem_nil, or_false] at hmem
  rcases hmem with h2 | h2 | h2 | h2 <;> subst h2 <;> exact absurd h (by decide)

/-- A stdlib error page never is a JSON body. -/
lemma send_error_not_json (code : Nat) (m : Str) (j : Json) :
    (send_error code m).body ≠ Body.jsonBody j := by
  simp [send_error]

/-- A stdlib static-file response never is a JSON body. -/
lemma simple_not_json (ef : Str → Bool) (q : Str) (j : Json) :
    (simple_do_GET ef q).body ≠ Body.jsonBody j := by
  unfold simple_do_GET
  split
  · simp
  · exact send_error_not_json _ _ _

/-- The proxy handler returns either a parameter error or a post-fetch
response. -/
lemma handle_proxy_cases (p : Str) (f : Str → FetchOutcome) :
    (∃ m, (handle_proxy p f).1 = send_error 400 m)
    ∨ (∃ o, (handle_proxy p f).1 = proxy_fetched o) := by
  unfold handle_proxy
  split
  · split
    · exact Or.inl ⟨_, rfl⟩
    · exact Or.inr ⟨_, rfl⟩
  · split
    · exact Or.inl ⟨_, rfl⟩
    · exact Or.inr ⟨_, rfl⟩

/-- The scrape handler returns either a parameter error or a post-fetch
response. -/
lemma handle_scrape_cases (p : Str) (f : Str → FetchOutcome) :
    (∃ m, (handle_playlist_scrape p f).1 = send_error 400 m)
    ∨ (∃ pid o, (handle_playlist_scrape p f).1 = scrape_fetched pid o) := by
  unfold handle_playlist_scrape
  split
  · exact Or.inl ⟨_, rfl⟩
  · exact Or.inr ⟨_, _, rfl⟩

/-- The SPA router always delegates to the stdlib file server. -/
lemma spa_cases (ef : Str → Bool) (p : Str) :
    ∃ q, handle_spa_routing ef p = simple_do_GET ef q := by
  unfold handle_spa_routing
  split
  · exact ⟨_, rfl⟩
  · split
    · exact ⟨_, rfl⟩
    · split
      · exact ⟨_, rfl⟩
      · exact ⟨_, rfl⟩

/-- Every JSON-bodied response of a proxy branch carries the CORS header. -/
lemma cors_proxy_fetched (o : FetchOutcome) (j : Json)
    (h : (proxy_fetched o).body = Body.jsonBody j) :
    corsHeader ∈ (proxy_fetched o).headers := by
  cases o with
  | ok html => simp [proxy_fetched, jsonHeaders, corsHeader]
  | urlError m => exact absurd h (send_error_not_json _ _ _)
  | otherError m => exact absurd h (send_error_not_json _ _ _)

/-- Every post-fetch scrape response carries the CORS header. -/
lemma cors_scrape_fetched (pid : Str) (o : FetchOutcome) :
    corsHeader ∈ (scrape_fetched pid o).headers := by
  cases o <;> simp [scrape_fetched, jsonHeaders, corsHeader]

/-- Every JSON-bodied response of `do_GET` carries the CORS header. -/
lemma cors_do_GET (ef : Str → Bool) (f : Str → FetchOutcome) (p : Str) (j : Json)
    (h : (do_GET ef f p).1.body = Body.jsonBody j) :
    corsHeader ∈ (do_GET ef f p).1.headers := by
  unfold do_GET at h ⊢
  by_cases h1 : ("/proxy".toList).isPrefixOf p = true
  · rw [if_pos h1] at h ⊢
    rcases handle_proxy_cases p f with ⟨m, hm⟩ | ⟨o, ho⟩
    · rw [hm] at h; exact absurd h (send_error_not_json _ _ _)
    · rw [ho] at h ⊢; exact cors_proxy_fetched o j h
  · rw [if_neg h1] at h ⊢
    by_cases h2 : ("/scrape-playlist".toList).isPrefixOf p = true
    · rw [if_pos h2] at h ⊢
      rcases handle_scrape_cases p f with ⟨m, hm⟩ | ⟨pid, o, ho⟩
      · rw [hm] at h; exact absurd h (send_error_not_json _ _ _)
      · rw [ho]; exact cors_scrape_fetched pid o
    · rw [if_neg h2] at h ⊢
      rcases spa_cases ef p with ⟨q, hq⟩
      rw [show ((handle_spa_routing ef p, ([] : List Str)).1) = handle_spa_routing ef p
        from rfl, hq] at h
      exact absurd h (simple_not_json ef q j)

/-- `do_POST` returns either a stdlib error or the save success response. -/
lemma do_POST_cases (p : Str) (payload : Except Str Json) :
    (∃ c m, (do_POST p payload).1 = send_error c m)
    ∨ (do_POST p payload).1 = saveOkResponse := by
  unfold do_POST save_branch
  repeat' split
  all_goals first
    | exact Or.inr rfl
    | exact Or.inl ⟨_, _, rfl⟩

/-- Every JSON-bodied response of `do_POST` carries the CORS header. -/
lemma cors_do_POST (p : Str) (payload : Except Str Json) (j : Json)
    (h : (do_POST p payload).1.body = Body.jsonBody j) :
    corsHeader ∈ (do_POST p payload).1.headers := by
  rcases do_POST_cases p payload with ⟨c, m, hm⟩ | hok
  · rw [hm] at h; exact absurd h (send_error_not_json _ _ _)
  · rw [hok]; simp [saveOkResponse, jsonHeaders, corsHeader]

/- Claim theorems. -/

/-- C1: for every HTML input, the identifier extractor used by
`GET /scrape-playlist` produces the matched 11-character tokens
deduplicated while preserving first-seen order (its output is a
duplicate-free sublist of the raw match sequence), truncated to the first
100 entries after deduplication, and the success response body reports the
extracted sequence together with `videoCount` equal to its length (the
`videoCount` field of `scrapeSuccessJson` is the length of its `videoIds`
argument by construction). -/
theorem claim_C1 (html : Str) :
    (extract_video_ids html = (dedupSeen [] (reFindAllVideoIds html)).take 100
      ∧ (extract_video_ids html).Nodup
      ∧ List.Sublist (extract_video_ids html) (reFindAllVideoIds html)
      ∧ (extract_video_ids html).length ≤ 100)
    ∧ (∀ (p : Str) (f : Str → FetchOutcome) (pid : Str),
        pid = getFirstParam (urlQueryOf p) ("id".toList) [] → pid ≠ [] →
        f (scrapeUrl pid) = FetchOutcome.ok html →
        (handle_playlist_scrape p f).1 =
          HttpResponse.mk 200 jsonHeaders (Body.jsonBody (scrapeSuccessJson pid
            (extract_playlist_name pid html) (extract_video_ids html)))) := by
  constructor
  · refine ⟨rfl, ?_, ?_, ?_⟩
    · exact (dedupSeen_nodup _ []).sublist (List.take_sublist _ _)
    · exact (List.take_sublist _ _).trans (dedupSeen_sublist _ [])
    · exact List.length_take_le _ _
  · intro p f pid hpid hne hf
    simp only [handle_playlist_scrape, ← hpid]
    rw [if_neg hne, hf]
    rfl

/-- Witness for C1 at a concrete request and page with a duplicated
identifier. -/
theorem claim_C1_witness :
    (handle_playlist_scrape ("/scrape-playlist?id=PL7".toList)
        (fun _ => FetchOutcome.ok sampleScrapeHtml)).1 =
      HttpResponse.mk 200 jsonHeaders (Body.jsonBody (scrapeSuccessJson ("PL7".toList)
        (extract_playlist_name ("PL7".toList) sampleScrapeHtml)
        (extract_video_ids sampleScrapeHtml))) :=
  (claim_C1 sampleScrapeHtml).2 ("/scrape-playlist?id=PL7".toList)
    (fun _ => FetchOutcome.ok sampleScrapeHtml) ("PL7".toList) (by decide) (by decide) rfl

/-- C2: every `GET` request with the scrape prefix is handled by
`_handle_playlist_scrape`; if the `id` parameter is missing/blank the
response is a 400, and otherwise the status is 200 for every fetch
outcome, with the success envelope on a successful fetch and the
`{'success': False, 'error': ...}` envelope on a `URLError` or on any
other exception. -/
theorem claim_C2 (ef : Str → Bool) (f : Str → FetchOutcome) (p : Str)
    (hp : ("/scrape-playlist".toList) <+: p) :
    do_GET ef f p = handle_playlist_scrape p f
    ∧ (getFirstParam (urlQueryOf p) ("id".toList) [] = [] →
        (do_GET ef f p).1 = send_error 400 ("Missing playlist id parameter".toList))
    ∧ (getFirstParam (urlQueryOf p) ("id".toList) [] ≠ [] →
        (do_GET ef f p).1.status = 200
        ∧ (∀ html, f (scrapeUrl (getFirstParam (urlQueryOf p) ("id".toList) []))
              = FetchOutcome.ok html →
            (do_GET ef f p).1.body = Body.jsonBody (scrapeSuccessJson
              (getFirstParam (urlQueryOf p) ("id".toList) [])
              (extract_playlist_name (getFirstParam (urlQueryOf p) ("id".toList) []) html)
              (extract_video_ids html)))
        ∧ (∀ m, f (scrapeUrl (getFirstParam (urlQueryOf p) ("id".toList) []))
              = FetchOutcome.urlError m →
            (do_GET ef f p).1.body
              = Body.jsonBody (scrapeFailJson ("Failed to fetch playlist: ".toList ++ m)))
        ∧ (∀ m, f (scrapeUrl (getFirstParam (urlQueryOf p) ("id".toList) []))
              = FetchOutcome.otherError m →
            (do_GET ef f p).1.body
              = Body.jsonBody (scrapeFailJson ("Server error: ".toList ++ m)))) := by
  have hd : do_GET ef f p = handle_playlist_scrape p f := by
    unfold do_GET
    rw [if_neg (fun hb => not_proxy_of_scrape hp (List.isPrefixOf_iff_prefix.mp hb)),
      if_pos (List.isPrefixOf_iff_prefix.mpr hp)]
  refine ⟨hd, ?_, ?_⟩
  · intro h0
    rw [hd]
    unfold handle_playlist_scrape
    rw [if_pos h0]
  · intro hne
    rw [hd]
    unfold handle_playlist_scrape
    rw [if_neg hne]
    refine ⟨?_, ?_, ?_, ?_⟩
    · cases ho : f (scrapeUrl (getFirstParam (urlQueryOf p) ("id".toList) [])) <;> rfl
    · intro html hf; rw [hf]; rfl
    · intro m hf; rw [hf]; rfl
    · intro m hf; rw [hf]; rfl

/-- Witness for C2 at concrete requests: a successful fetch gives 200, and
a network failure still gives a 200 whose body is the failure envelope. -/
theorem claim_C2_witness :
    (do_GET (fun _ => false) (fun _ => FetchOutcome.ok [])
        ("/scrape-playlist?id=PL7".toList)).1.status = 200
    ∧ (do_GET (fun _ => false) (fun _ => FetchOutcome.urlError ("boom".toList))
        ("/scrape-playlist?id=PL7".toList)).1.body
      = Body.jsonBody (scrapeFailJson ("Failed to fetch playlist: ".toList ++ "boom".toList)) := by
  constructor
  · exact ((claim_C2 (fun _ => false) (fun _ => FetchOutcome.ok [])
      ("/scrape-playlist?id=PL7".toList) (by decide)).2.2 (by decide)).1
  · exact ((claim_C2 (fun _ => false) (fun _ => FetchOutcome.urlError ("boom".toList))
      ("/scrape-playlist?id=PL7".toList) (by decide)).2.2 (by decide)).2.2.1 ("boom".toList) rfl

/-- C6: a `/proxy` request without a username, a `/proxy-anime` request
without an anime id, and a `/scrape-playlist` request without a playlist
id each produce the corresponding 400 and issue no outbound fetch (the
fetch log of the result is empty). -/
theorem claim_C6 :
    (∀ (ef : Str → Bool) (f : Str → FetchOutcome) (p : Str),
      ("/proxy".toList) <+: p →
      ¬ (("/proxy-anime".toList) <+: p) →
      getFirstParam (urlQueryOf p) ("username".toList) [] = [] →
      do_GET ef f p = (send_error 400 ("Missing username parameter".toList), []))
    ∧ (∀ (ef : Str → Bool) (f : Str → FetchOutcome) (p : Str),
      ("/proxy-anime".toList) <+: p →
      getFirstParam (urlQueryOf p) ("id".toList) [] = [] →
      do_GET ef f p = (send_error 400 ("Missing anime id parameter".toList), []))
    ∧ (∀ (ef : Str → Bool) (f : Str → FetchOutcome) (p : Str),
      ("/scrape-playlist".toList) <+: p →
      getFirstParam (urlQueryOf p) ("id".toList) [] = [] →
      do_GET ef f p = (send_error 400 ("Missing playlist id parameter".toList), [])) := by
  refine ⟨?_, ?_, ?_⟩
  · intro ef f p h1 h2 h0
    unfold do_GET handle_proxy
    rw [if_pos (List.isPrefixOf_iff_prefix.mpr h1),
      if_neg (fun hb => h2 (List.isPrefixOf_iff_prefix.mp hb)), if_pos h0]
  · intro ef f p h1 h0
    unfold do_GET handle_proxy
    rw [if_pos (List.isPrefixOf_iff_prefix.mpr (proxy_of_anime h1)),
      if_pos (List.isPrefixOf_iff_prefix.mpr h1), if_pos h0]
  · intro ef f p h1 h0
    unfold do_GET handle_playlist_scrape
    rw [if_neg (fun hb => not_proxy_of_scrape h1 (List.isPrefixOf_iff_prefix.mp hb)),
      if_pos (List.isPrefixOf_iff_prefix.mpr h1), if_pos h0]

/-- Witness for C6 at the three bare endpoint paths, with a file-exists
oracle that affirms every path. -/
theorem claim_C6_witness :
    do_GET (fun _ => true) (fun _ => FetchOutcome.ok []) ("/proxy".toList)
      = (send_error 400 ("Missing username parameter".toList), [])
    ∧ do_GET (fun _ => true) (fun _ => FetchOutcome.ok []) ("/proxy-anime".toList)
      = (send_error 400 ("Missing anime id parameter".toList), [])
    ∧ do_GET (fun _ => true) (fun _ => FetchOutcome.ok []) ("/scrape-playlist".toList)
      = (send_error 400 ("Missing playlist id parameter".toList), []) := by
  refine ⟨?_, ?_, ?_⟩
  · exact claim_C6.1 (fun _ => true) (fun _ => FetchOutcome.ok []) ("/proxy".toList)
      (by decide) (by decide) (by decide)
  · exact claim_C6.2.1 (fun _ => true) (fun _ => FetchOutcome.ok []) ("/proxy-anime".toList)
      (by decide) (by decide)
  · exact claim_C6.2.2 (fun _ => true) (fun _ => FetchOutcome.ok []) ("/scrape-playlist".toList)
      (by decide) (by decide)

/-- C9: every `GET` whose path begins `/proxy` is dispatched to the proxy
handler, whatever the file-exists oracle says (the result does not depend
on it, so static files and the SPA fallback are bypassed); and such a path
without the `/proxy-anime` prefix and without a username parameter is
answered by the proxy-list 400. -/
theorem claim_C9 (ef : Str → Bool) (f : Str → FetchOutcome) (p : Str)
    (hp : ("/proxy".toList) <+: p) :
    do_GET ef f p = handle_proxy p f
    ∧ (¬ (("/proxy-anime".toList) <+: p) →
        getFirstParam (urlQueryOf p) ("username".toList) [] = [] →
        do_GET ef f p = (send_error 400 ("Missing username parameter".toList), [])) := by
  constructor
  · unfold do_GET
    rw [if_pos (List.isPrefixOf_iff_prefix.mpr hp)]
  · intro h2 h0
    unfold do_GET handle_proxy
    rw [if_pos (List.isPrefixOf_iff_prefix.mpr hp),
      if_neg (fun hb => h2 (List.isPrefixOf_iff_prefix.mp hb)), if_pos h0]

/-- Witness for C9 at `/proxy.js` with a file-exists oracle that affirms
every path: the request is still answered by the proxy-list 400. -/
theorem claim_C9_witness :
    do_GET (fun _ => true) (fun _ => FetchOutcome.ok []) ("/proxy.js".toList)
      = (send_error 400 ("Missing username parameter".toList), []) :=
  (claim_C9 (fun _ => true) (fun _ => FetchOutcome.ok []) ("/proxy.js".toList)
    (by decide)).2 (by decide) (by decide)

/-- C10: on the shared surface, the legacy server of src/site/server.py is
behaviorally equivalent to src/server.py: any `GET /proxy?...` request
produces the same result (status, headers, body and issued fetches) in
both, and POSTs to `/save-shows` and `/save-schedule-updates` produce the
same response and the same stored document in both. -/
theorem claim_C10 (ef : Str → Bool) (f : Str → FetchOutcome) (q : Str)
    (payload : Except Str Json) :
    site_do_GET ef f ("/proxy?".toList ++ q) = do_GET ef f ("/proxy?".toList ++ q)
    ∧ site_do_POST ("/save-shows".toList) payload
        = do_POST ("/save-shows".toList) payload
    ∧ site_do_POST ("/save-schedule-updates".toList) payload
        = do_POST ("/save-schedule-updates".toList) payload := by
  exact ⟨rfl, rfl, rfl⟩

/-- C3 as stated is false at `/save-titles`: the stored document is the raw
payload, not a `{"titles": payload}` envelope (src/server.py line 256 dumps
`titles_data` directly). -/
theorem claim_C3_counterexample :
    (do_POST ("/save-titles".toList) (Except.ok (Json.str ("x".toList)))).2
      = [(("data/titles.json".toList), Json.str ("x".toList))]
    ∧ Json.str ("x".toList) ≠ Json.obj [(("titles".toList), Json.str ("x".toList))] :=
  ⟨rfl, fun h => Json.noConfusion h⟩

/-- C3 amended: the sink wraps the payload in a name-specific envelope for
`/save-shows`, `/save-songs` and `/save-playlists`, while both
`/save-schedule-updates` and `/save-titles` store the raw payload
unwrapped. -/
theorem claim_C3 (payload : Json) :
    do_POST ("/save-shows".toList) (Except.ok payload)
      = (saveOkResponse,
         [(("data/shows.json".toList), Json.obj [(("shows".toList), payload)])])
    ∧ do_POST ("/save-songs".toList) (Except.ok payload)
      = (saveOkResponse,
         [(("data/songs.json".toList), Json.obj [(("songs".toList), payload)])])
    ∧ do_POST ("/save-playlists".toList) (Except.ok payload)
      = (saveOkResponse,
         [(("data/playlists.json".toList), Json.obj [(("playlists".toList), payload)])])
    ∧ do_POST ("/save-schedule-updates".toList) (Except.ok payload)
      = (saveOkResponse, [(("data/schedule_updates.json".toList), payload)])
    ∧ do_POST ("/save-titles".toList) (Except.ok payload)
      = (saveOkResponse, [(("data/titles.json".toList), payload)]) :=
  ⟨rfl, rfl, rfl, rfl, rfl⟩

/-- C4 as stated is false: the 400 answer to `/proxy` without a username is
sent through the stdlib `send_error` and carries no
`Access-Control-Allow-Origin` header. -/
theorem claim_C4_counterexample :
    corsHeader ∉ (do_GET (fun _ => false) (fun _ => FetchOutcome.ok [])
      ("/proxy".toList)).1.headers := by decide

/-- C4 amended: every response whose body is JSON the handlers composed
themselves (proxy and scrape successes, scrape failure envelopes, save
successes) carries `Access-Control-Allow-Origin: *`, while responses
produced via the stdlib `send_error` (400/404/500) and plain file serving
do not; and every OPTIONS request is answered with 200, the three standard
CORS headers, and an empty body. -/
theorem claim_C4 :
    (do_OPTIONS.status = 200 ∧ do_OPTIONS.body = Body.empty
      ∧ do_OPTIONS.headers
          = [(("Access-Control-Allow-Origin".toList), ("*".toList)),
             (("Access-Control-Allow-Methods".toList), ("POST, GET, OPTIONS".toList)),
             (("Access-Control-Allow-Headers".toList), ("Content-Type".toList))])
    ∧ (∀ (ef : Str → Bool) (f : Str → FetchOutcome) (p : Str) (j : Json),
        (do_GET ef f p).1.body = Body.jsonBody j →
        corsHeader ∈ (do_GET ef f p).1.headers)
    ∧ (∀ (p : Str) (payload : Except Str Json) (j : Json),
        (do_POST p payload).1.body = Body.jsonBody j →
        corsHeader ∈ (do_POST p payload).1.headers) :=
  ⟨⟨rfl, rfl, rfl⟩, cors_do_GET, cors_do_POST⟩

/-- Witness for C4 at a concrete proxied request whose response body is
JSON. -/
theorem claim_C4_witness :
    corsHeader ∈ (do_GET (fun _ => false) (fun _ => FetchOutcome.ok ("H".toList))
      ("/proxy?username=bob".toList)).1.headers :=
  claim_C4.2.1 (fun _ => false) (fun _ => FetchOutcome.ok ("H".toList))
    ("/proxy?username=bob".toList) (proxyHtmlJson ("H".toList)) rfl

/-- C5: for GET requests outside the proxy/scrape prefixes, a known app
route (`/shows`) and an unknown, extensionless, non-data path that does not
exist on disk are both answered with the very same root document response
(the contents of `/app.html`), while a missing path under `/data/` falls
through to the stdlib 404 instead of the fallback. -/
theorem claim_C5 :
    (∀ (ef : Str → Bool) (f : Str → FetchOutcome),
      ef ("/app.html".toList) = true →
      (do_GET ef f ("/shows".toList)).1
        = HttpResponse.mk 200 [] (Body.fileContents ("/app.html".toList)))
    ∧ (∀ (ef : Str → Bool) (f : Str → FetchOutcome) (p : Str),
        ¬ (("/proxy".toList) <+: p) →
        ¬ (("/scrape-playlist".toList) <+: p) →
        urlPathOf p ∉ spa_routes →
        ef (urlPathOf p) = false →
        ¬ (("/data/".toList) <+: urlPathOf p) →
        splitextHasExt (urlPathOf p) = false →
        ef ("/app.html".toList) = true →
        (do_GET ef f p).1
          = HttpResponse.mk 200 [] (Body.fileContents ("/app.html".toList)))
    ∧ (∀ (ef : Str → Bool) (f : Str → FetchOutcome) (p : Str),
        ¬ (("/proxy".toList) <+: p) →
        ¬ (("/scrape-playlist".toList) <+: p) →
        ("/data/".toList) <+: urlPathOf p →
        ef (urlPathOf p) = false →
        (do_GET ef f p).1 = send_error 404 ("File not found".toList)) := by
  refine ⟨?_, ?_, ?_⟩
  · intro ef f happ
    unfold do_GET
    rw [if_neg (fun hb => absurd (List.isPrefixOf_iff_prefix.mp hb) (by decide)),
      if_neg (fun hb => absurd (List.isPrefixOf_iff_prefix.mp hb) (by decide))]
    show handle_spa_routing ef ("/shows".toList) = _
    unfold handle_spa_routing
    rw [if_pos (by decide : urlPathOf ("/shows".toList) ∈ spa_routes)]
    unfold simple_do_GET
    rw [if_pos (show ef (urlPathOf ("/app.html".toList)) = true from happ)]
    rfl
  · intro ef f p h1 h2 hmem hef hdata hext happ
    have hdataB : ("/data/".toList).isPrefixOf (urlPathOf p) = false := by
      cases hb : ("/data/".toList).isPrefixOf (urlPathOf p) with
      | false => rfl
      | true => exact absurd (List.isPrefixOf_iff_prefix.mp hb) hdata
    unfold do_GET
    rw [if_neg (fun hb => h1 (List.isPrefixOf_iff_prefix.mp hb)),
      if_neg (fun hb => h2 (List.isPrefixOf_iff_prefix.mp hb))]
    show handle_spa_routing ef p = _
    unfold handle_spa_routing
    rw [if_neg hmem, if_neg (by rw [hef]; exact Bool.false_ne_true),
      if_pos (by rw [hdataB, hext]; rfl)]
    unfold simple_do_GET
    rw [if_pos (show ef (urlPathOf ("/app.html".toList)) = true from happ)]
    rfl
  · intro ef f p h1 h2 hdata hef
    have hdataB : ("/data/".toList).isPrefixOf (urlPathOf p) = true :=
      List.isPrefixOf_iff_prefix.mpr hdata
    unfold do_GET
    rw [if_neg (fun hb => h1 (List.isPrefixOf_iff_prefix.mp hb)),
      if_neg (fun hb => h2 (List.isPrefixOf_iff_prefix.mp hb))]
    show handle_spa_routing ef p = _
    unfold handle_spa_routing
    rw [if_neg (data_not_spa hdata), if_neg (by rw [hef]; exact Bool.false_ne_true),
      if_neg (by rw [hdataB]; exact Bool.false_ne_true)]
    unfold simple_do_GET
    rw [if_neg (by rw [hef]; exact Bool.false_ne_true)]

/-- Witness for C5: a known route and a concrete unknown extensionless
path produce the identical root-document response, and a missing data path
produces the stdlib 404. -/
theorem claim_C5_witness :
    (do_GET (fun q => q == ("/app.html".toList)) (fun _ => FetchOutcome.ok [])
        ("/shows".toList)).1
      = HttpResponse.mk 200 [] (Body.fileContents ("/app.html".toList))
    ∧ (do_GET (fun q => q == ("/app.html".toList)) (fun _ => FetchOutcome.ok [])
        ("/anything-without-dot".toList)).1
      = HttpResponse.mk 200 [] (Body.fileContents ("/app.html".toList))
    ∧ (do_GET (fun q => q == ("/app.html".toList)) (fun _ => FetchOutcome.ok [])
        ("/data/missing.json".toList)).1
      = send_error 404 ("File not found".toList) := by
  refine ⟨?_, ?_, ?_⟩
  · exact claim_C5.1 (fun q => q == ("/app.html".toList)) (fun _ => FetchOutcome.ok [])
      (by decide)
  · exact claim_C5.2.1 (fun q => q == ("/app.html".toList)) (fun _ => FetchOutcome.ok [])
      ("/anything-without-dot".toList) (by decide) (by decide) (by decide) (by decide)
      (by decide) (by decide) (by decide)
  · exact claim_C5.2.2 (fun q => q == ("/app.html".toList)) (fun _ => FetchOutcome.ok [])
      ("/data/missing.json".toList) (by decide) (by decide) (by decide) (by decide)

/-- C7 as stated is false: on a title that contains the site-name text in
the middle as well, the source's `.replace(' - YouTube', '')` removes every
occurrence, while stripping only a trailing suffix (the claim's wording,
`claimedTitleTransform`) keeps the inner one. -/
theorem claim_C7_counterexample :
    reSearchTitle titleClashHtml = some ("A - YouTube B - YouTube".toList)
    ∧ extract_playlist_name ("PL1".toList) titleClashHtml = "A B".toList
    ∧ claimedTitleTransform ("A - YouTube B - YouTube".toList) = "A - YouTube B".toList
    ∧ extract_playlist_name ("PL1".toList) titleClashHtml
        ≠ claimedTitleTransform ("A - YouTube B - YouTube".toList) := by
  refine ⟨by decide, by decide, by decide, by decide⟩

/-- C7 amended: the title extractor takes the first, non-greedy
`<title>…</title>` match; when there is no match the playlist name falls
back to the raw playlist id, and when there is a match the name is the
capture group with every occurrence of `" - YouTube"` removed (one
left-to-right replacement pass, not only a trailing strip), then trimmed of
surrounding whitespace. -/
theorem claim_C7 (playlist_id html : Str) :
    (reSearchTitle html = none → extract_playlist_name playlist_id html = playlist_id)
    ∧ (∀ t, reSearchTitle html = some t →
        extract_playlist_name playlist_id html
          = pyStrip (pyReplace t (" - YouTube".toList) [])) := by
  constructor
  · intro h; unfold extract_playlist_name; rw [h]
  · intro t h; unfold extract_playlist_name; rw [h]

/-- Witness for C7: the fallback on a page without a title tag, and the
replace-then-strip transform on a concrete title. -/
theorem claim_C7_witness :
    extract_playlist_name ("PL9".toList) ("no title".toList) = "PL9".toList
    ∧ extract_playlist_name ("PL9".toList) ("<title> X - YouTube </title>".toList)
        = pyStrip (pyReplace (" X - YouTube ".toList) (" - YouTube".toList) []) :=
  ⟨(claim_C7 ("PL9".toList) ("no title".toList)).1 (by decide),
   (claim_C7 ("PL9".toList) ("<title> X - YouTube </title>".toList)).2
     (" X - YouTube ".toList) (by decide)⟩

/-- C8 as stated is false: with `?id=AAAAAAAAAAA&id=BBBBBBBBBBB` the scrape
handler proceeds with the FIRST supplied value (`parse_qs` group element
`[0]`), not the last one. -/
theorem claim_C8_counterexample :
    getFirstParam (urlQueryOf dupIdPath) ("id".toList) [] = "AAAAAAAAAAA".toList
    ∧ (handle_playlist_scrape dupIdPath (fun _ => FetchOutcome.ok [])).1.body
        = Body.jsonBody
            (scrapeSuccessJson ("AAAAAAAAAAA".toList) ("AAAAAAAAAAA".toList) [])
    ∧ ("AAAAAAAAAAA".toList) ≠ ("BBBBBBBBBBB".toList) := by
  refine ⟨by decide, rfl, by decide⟩

/-- Python split never returns an empty list of pieces. -/
lemma splitOnChar_ne_nil (sep : Char) (l : Str) : splitOnChar sep l ≠ [] := by
  cases l with
  | nil => simp [splitOnChar]
  | cons c rest =>
    simp only [splitOnChar]
    rcases h : splitOnChar sep rest with _ | ⟨h1, t⟩
    · simp
    · show ¬ (if c = sep then [] :: h1 :: t else (c :: h1) :: t) = []
      split <;> simp

/-- Splitting `a ++ sep :: b` when `a` is free of the separator yields `a`
followed by the split of `b`. -/
lemma splitOnChar_append_sep (sep : Char) (b : Str) :
    ∀ a : Str, (∀ c ∈ a, ¬ c = sep) →
      splitOnChar sep (a ++ sep :: b) = a :: splitOnChar sep b := by
  intro a
  induction a with
  | nil =>
    intro _
    simp only [List.nil_append, splitOnChar]
    rcases h : splitOnChar sep b with _ | ⟨h1, t⟩
    · exact absurd h (splitOnChar_ne_nil sep b)
    · simp [h]
  | cons c cs ih =>
    intro ha
    have hc : ¬ c = sep := ha c (List.mem_cons_self c cs)
    have ih2 := ih (fun d hd => ha d (List.mem_cons_of_mem c hd))
    simp [splitOnChar, ih2, hc]

/-- Parsing a query piece `id=<v>` with a non-empty value: the name is the
text before the first '=', the value everything after it. -/
lemma qsPair_id (v : Str) (hv : v ≠ []) :
    qsPair ("id=".toList ++ v) = some (("id".toList), v) := by
  have h : qsPair ("id=".toList ++ v) = if v = [] then none else some (("id".toList), v) := rfl
  rw [h, if_neg hv]

/-- The handlers' parameter lookup on a query that repeats `id` returns the
value of the first occurrence. -/
lemma getFirstParam_dup_id (v1 v2 dflt : Str) (h1 : v1 ≠ [])
    (ha : ∀ c ∈ v1, ¬ c = '&') :
    getFirstParam ("id=".toList ++ v1 ++ "&id=".toList ++ v2) ("id".toList) dflt = v1 := by
  have hall : ∀ c ∈ ("id=".toList ++ v1), ¬ c = '&' := by
    intro c hc
    rcases List.mem_append.mp hc with h | h
    · have hcm : c = 'i' ∨ c = 'd' ∨ c = '=' := by simpa using h
      rcases hcm with rfl | rfl | rfl <;> decide
    · exact ha c h
  have hform : ("id=".toList ++ v1 ++ "&id=".toList ++ v2 : Str)
      = ("id=".toList ++ v1) ++ '&' :: ("id=".toList ++ v2) := by
    rw [List.append_assoc ("id=".toList ++ v1) ("&id=".toList) v2]
    rfl
  have hsplit : splitOnChar '&' ("id=".toList ++ v1 ++ "&id=".toList ++ v2)
      = ("id=".toList ++ v1) :: splitOnChar '&' ("id=".toList ++ v2) := by
    rw [hform]
    exact splitOnChar_append_sep '&' ("id=".toList ++ v2) ("id=".toList ++ v1) hall
  have hfm : List.filterMap qsPair
        ((("id=".toList ++ v1)) :: splitOnChar '&' ("id=".toList ++ v2))
      = (("id".toList, v1))
          :: List.filterMap qsPair (splitOnChar '&' ("id=".toList ++ v2)) := by
    rw [List.filterMap_cons, qsPair_id v1 h1]
  have hfil : List.filter (fun pr => pr.1 == ("id".toList))
        ((("id".toList, v1))
          :: List.filterMap qsPair (splitOnChar '&' ("id=".toList ++ v2)))
      = (("id".toList, v1)) :: List.filter (fun pr => pr.1 == ("id".toList))
          (List.filterMap qsPair (splitOnChar '&' ("id=".toList ++ v2))) := by
    simp
  unfold getFirstParam parse_qsl
  rw [hsplit, hfm, hfil]

/-- C8 amended: query parameters are looked up first-wins, not last-wins:
when the same name appears more than once, the handlers use the FIRST
occurrence's value — stated for the shared lookup `getFirstParam` (the
model of `parse_qs(...).get(name, [default])[0]` used by all handlers) on
a duplicated `id`, and for the scrape handler on a request with a
duplicated `id`: it proceeds with the first value. -/
theorem claim_C8 :
    (∀ (v1 v2 dflt : Str), v1 ≠ [] → (∀ c ∈ v1, ¬ c = '&') →
      getFirstParam ("id=".toList ++ v1 ++ "&id=".toList ++ v2) ("id".toList) dflt = v1)
    ∧ (∀ (v1 v2 : Str) (f : Str → FetchOutcome), v1 ≠ [] →
        (∀ c ∈ v1, ¬ c = '&' ∧ ¬ c = '#') → (∀ c ∈ v2, ¬ c = '#') →
        handle_playlist_scrape
            ("/scrape-playlist?id=".toList ++ v1 ++ "&id=".toList ++ v2) f
          = (scrape_fetched v1 (f (scrapeUrl v1)), [scrapeUrl v1])) := by
  constructor
  · intro v1 v2 dflt h1 ha
    exact getFirstParam_dup_id v1 v2 dflt h1 ha
  · intro v1 v2 f h1 ha hb
    have hnh : ∀ c ∈ ("/scrape-playlist?id=".toList ++ v1 ++ "&id=".toList ++ v2),
        (!(c == '#')) = true := by
      intro c hc
      have hne : ¬ c = '#' := by
        rcases List.mem_append.mp hc with h | h
        · rcases List.mem_append.mp h with h2 | h2
          · rcases List.mem_append.mp h2 with h3 | h3
            · exact (by decide : ∀ x ∈ ("/scrape-playlist?id=".toList), ¬ x = '#') c h3
            · exact (ha c h3).2
          · exact (by decide : ∀ x ∈ ("&id=".toList), ¬ x = '#') c h2
        · exact hb c h
      simp [hne]
    have hdef : urlDefrag ("/scrape-playlist?id=".toList ++ v1 ++ "&id=".toList ++ v2)
        = "/scrape-playlist?id=".toList ++ v1 ++ "&id=".toList ++ v2 :=
      List.takeWhile_eq_self_iff.mpr hnh
    have hquery : urlQueryOf ("/scrape-playlist?id=".toList ++ v1 ++ "&id=".toList ++ v2)
        = "id=".toList ++ v1 ++ "&id=".toList ++ v2 := by
      unfold urlQueryOf
      rw [hdef]
      rw [if_pos (List.mem_append.mpr (Or.inl (List.mem_append.mpr (Or.inl
        (List.mem_append.mpr (Or.inl
          (by decide : '?' ∈ ("/scrape-playlist?id=".toList))))))))]
      rfl
    have hpar : getFirstParam
        (urlQueryOf ("/scrape-playlist?id=".toList ++ v1 ++ "&id=".toList ++ v2))
        ("id".toList) [] = v1 := by
      rw [hquery]
      exact getFirstParam_dup_id v1 v2 [] h1 (fun c hc => (ha c hc).1)
    unfold handle_playlist_scrape
    rw [hpar, if_neg h1]

/-- Witness for C8 at concrete duplicated values. -/
theorem claim_C8_witness :
    getFirstParam ("id=".toList ++ "AAA".toList ++ "&id=".toList ++ "BBB".toList)
      ("id".toList) [] = "AAA".toList
    ∧ handle_playlist_scrape
        ("/scrape-playlist?id=".toList ++ "AAA".toList ++ "&id=".toList ++ "BBB".toList)
        (fun _ => FetchOutcome.ok [])
      = (scrape_fetched ("AAA".toList) (FetchOutcome.ok []),
         [scrapeUrl ("AAA".toList)]) := by
  constructor
  · exact claim_C8.1 ("AAA".toList) ("BBB".toList) [] (by decide) (by decide)
  · exact claim_C8.2 ("AAA".toList) ("BBB".toList) (fun _ => FetchOutcome.ok [])
      (by decide) (by decide) (by decide)
